import Mathlib

/-!
Verification of the `dask_condor` worker-fleet controller
(`src/dask_condor/__init__.py`) against its natural-language specification.

The module is shallowly embedded: every Python function that matters to the
claims is translated into an executable Lean definition.  Conventions:

* Remote interaction with the HTCondor schedd (`schedd.act`, `schedd.query`,
  `job.queue` inside a transaction) is modelled by an explicit trace of
  `RemoteCall` values returned alongside the result; a Python exception is an
  `Except.error`, and the trace returned with an error holds exactly the
  remote calls issued before the exception was raised.
* Python keys the `jobs` dict by the string `"%s.%s" % (ClusterId, ProcId)`.
  Decimal numerals contain no `'.'`, so this encoding is injective on pairs;
  the dict is therefore modelled keyed by the pair `(ClusterId, ProcId)`.
  The constraint builders, which consume the string form supplied by callers,
  are modelled on strings exactly as in the source.
* `int(x)` in Python truncates toward zero; every value it is applied to in
  this module (`reserved * 1.1` with `reserved ≥ 20`) is positive, where
  truncation agrees with Lean's `Int` division.  For those inputs the float
  product `reserved * 1.1` rounds to a value whose truncation equals
  `reserved * 11 / 10`, which is how it is modelled.
* The module is Python 2 code (`from __future__ import ...`); `dict.keys()`
  returns a fresh list, so `cleanup_jobs`'s delete-while-iterating loop
  removes exactly the tracked ids absent from the active set.
-/

set_option autoImplicit false

namespace DaskCondor

/-- A job classad as far as this module reads it: `ClusterId`, `ProcId`,
`JobStatus` (plus write-once submit attributes we do not need to track). -/
structure Ad where
  clusterId : Nat
  procId : Nat
  jobStatus : Int
  deriving DecidableEq, Repr

/-- The key `"%s.%s" % (ad['ClusterId'], ad['ProcId'])` of the `jobs` dict,
modelled as the (injectively encoded) pair. -/
abbrev JobId := Nat × Nat

/-- The job id the module builds from a classad. -/
def adJobId (ad : Ad) : JobId := (ad.clusterId, ad.procId)

/-- The submit descriptor fields computed by `start_workers` (the parts of the
`htcondor.Submit` ad that the module itself computes). -/
structure SubmitDescriptor where
  nprocs : Int
  nthreads : Int
  memory_limit : Int
  request_memory : Int
  request_cpus : Int
  dask_scheduler_id : String
  periodic_hold_seconds : Int
  deriving DecidableEq, Repr

/-- One remote request issued to the schedd (the Scheduler Client). -/
inductive RemoteCall where
  | act_remove (job_spec : String)
  | submit (descriptor : SubmitDescriptor) (count : Nat)
  deriving DecidableEq, Repr

/-- Is this remote call a removal request? -/
def RemoteCall.isRemove : RemoteCall → Bool
  | .act_remove _ => true
  | _ => false

-- JOB_STATUS_IDLE = 1; JOB_STATUS_RUNNING = 2; JOB_STATUS_HELD = 5

def JOB_STATUS_IDLE : Int := 1

def JOB_STATUS_RUNNING : Int := 2

def JOB_STATUS_HELD : Int := 5

/-- `worker_constraint(jobid)`: `clusterid, procid = jobid.split('.', 1)`;
the unpacking raises `ValueError` when the string holds no `'.'`. -/
def worker_constraint (jobid : String) : Except String String :=
  match jobid.splitOn "." with
  | [] => .error "ValueError: not enough values to unpack"
  | [_] => .error "ValueError: not enough values to unpack"
  | clusterid :: rest =>
      .ok ("(ClusterId == " ++ clusterid ++ " && ProcId == "
            ++ String.intercalate "." rest ++ ")")

/-- `or_constraints(constraints)`: `'(' + ' || '.join(constraints) + ')'`. -/
def or_constraints (constraints : List String) : String :=
  "(" ++ String.intercalate " || " constraints ++ ")"

/-- `workers_constraint(jobids)`: `or_constraints` over `worker_constraint`
of each id (the comprehension propagates any `ValueError`). -/
def workers_constraint (jobids : List String) : Except String String := do
  let cs ← jobids.mapM worker_constraint
  return or_constraints cs

/-- `reserved_memory_per_worker(procs_per_worker)`: `base_usage = 10`,
`per_proc_usage = 10`, `nanny_usage = 4`; single-process workers reserve
`base + per_proc`, multi-process ones `base + nanny + per_proc * procs`;
`int(reserved * 1.1)` adds the 10% slop (`reserved ≥ 20`, so the truncating
float computation equals `reserved * 11 / 10`). -/
def reserved_memory_per_worker (procs_per_worker : Int) : Int :=
  let base_usage : Int := 10
  let per_proc_usage : Int := 10
  let nanny_usage : Int := 4
  let reserved : Int :=
    base_usage +
      (if procs_per_worker > 1 then
        nanny_usage + per_proc_usage * procs_per_worker
      else
        per_proc_usage)
  reserved * 11 / 10

/-- `condor_rm(schedd, job_spec)`: `schedd.act(htcondor.JobAction.Remove,
job_spec)`.  The schedd is an opaque handle; `fails` says which handles raise
on contact.  On success the issued call is traced. -/
def condor_rm (fails : Nat → Bool) (schedd : Nat) (job_spec : String) :
    List RemoteCall × Except String Unit :=
  if fails schedd then
    ([], .error "HTCondorIOError")
  else
    ([RemoteCall.act_remove job_spec], .ok ())

/-- The process-wide `_global_schedulers` list of
`(scheduler_id, schedd)` pairs. -/
abbrev Registry := List (String × Nat)

/-- `global_killall()` (the `atexit` handler): for each registered pair, run
`condor_rm(schedd, 'DaskSchedulerId == "%s"' % sid)`.  The loop has no
exception handling, so the first failing `condor_rm` aborts it and the
exception propagates out of the handler. -/
def global_killall (fails : Nat → Bool) :
    Registry → List RemoteCall × Except String Unit
  | [] => ([], .ok ())
  | (sid, schedd) :: rest =>
      let (calls, res) :=
        condor_rm fails schedd ("DaskSchedulerId == \"" ++ sid ++ "\"")
      match res with
      | .error e => (calls, .error e)
      | .ok () =>
          let (calls', res') := global_killall fails rest
          (calls ++ calls', res')

/-- An association list with Python-dict semantics for `jobs`
(`{jobid: CLASSAD}`): assignment to a present key updates in place,
otherwise the new entry is appended. -/
def dictInsert (d : List (JobId × Ad)) (k : JobId) (v : Ad) :
    List (JobId × Ad) :=
  if d.any (fun p => p.1 = k) then
    d.map (fun p => if p.1 = k then (k, v) else p)
  else
    d ++ [(k, v)]

/-- Dict lookup on the `jobs` association list. -/
def dictFind (d : List (JobId × Ad)) (k : JobId) : Option Ad :=
  (d.find? (fun p => p.1 = k)).map (fun p => p.2)

/-- `HTCondorCluster` state: the attached scheduler's id, the schedd handle,
the `jobs` dict and the constructor-supplied configuration defaults.
`reserved_memory` defaults to `None`. -/
structure HTCondorCluster where
  scheduler_id : String
  schedd : Nat
  jobs : List (JobId × Ad)
  memory_per_worker : Int
  procs_per_worker : Int
  threads_per_worker : Int
  reserved_memory : Option Int
  worker_timeout : Int
  deriving DecidableEq, Repr

/-- Keyword arguments of `HTCondorCluster.__init__` with their defaults
(the schedd location arguments are handled by the caller of `init`). -/
structure InitArgs where
  memory_per_worker : Int := 1024
  procs_per_worker : Int := 1
  reserved_memory : Option Int := none
  threads_per_worker : Int := 1
  cleanup_interval : Int := 1000
  worker_timeout : Int := 24 * 60 * 60
  deriving Repr

/-- `HTCondorCluster.__init__`: after creating the schedd handle and the
local cluster (external collaborators, supplied here as `schedd` and the
scheduler id `sid`), it appends `(self.scheduler.id, self.schedd)` to
`_global_schedulers`, sets `self.jobs = {}`, and only then validates
`cleanup_interval`, raising `ValueError` when it is `< 1`; the configuration
fields are assigned afterwards.  The registry append precedes the check, so
a failing construction leaves the pair registered. -/
def HTCondorCluster.init (registry : Registry) (sid : String) (schedd : Nat)
    (a : InitArgs) : Registry × Except String HTCondorCluster :=
  let registry' := registry ++ [(sid, schedd)]
  if a.cleanup_interval < 1 then
    (registry', .error "ValueError: cleanup_interval must be >= 1")
  else
    (registry',
      .ok { scheduler_id := sid
            schedd := schedd
            jobs := []
            memory_per_worker := a.memory_per_worker
            procs_per_worker := a.procs_per_worker
            threads_per_worker := a.threads_per_worker
            reserved_memory := a.reserved_memory
            worker_timeout := a.worker_timeout })

/-- `self.scheduler_constraint`:
`'(DaskSchedulerId == "%s")' % self.scheduler.id`. -/
def HTCondorCluster.scheduler_constraint (c : HTCondorCluster) : String :=
  "(DaskSchedulerId == \"" ++ c.scheduler_id ++ "\")"

/-- Python truthiness fallback `arg or dflt` for an optional int argument:
`None` and `0` are falsy and select the default. -/
def pyOr (arg : Option Int) (dflt : Int) : Int :=
  match arg with
  | some v => if v ≠ 0 then v else dflt
  | none => dflt

/-- The chain `reserved_memory or self.reserved_memory or
reserved_memory_per_worker(procs_per_worker)`. -/
def pyOrOpt (arg : Option Int) (dflt : Option Int) (computed : Int) : Int :=
  match arg with
  | some v => if v ≠ 0 then v else pyOr dflt computed
  | none => pyOr dflt computed

/-- Keyword arguments of `start_workers`; `n` defaults to `1`, every other
knob to `None` (falling back to the constructor defaults). -/
structure StartArgs where
  n : Int := 1
  memory_per_worker : Option Int := none
  procs_per_worker : Option Int := none
  reserved_memory : Option Int := none
  threads_per_worker : Option Int := none
  worker_timeout : Option Int := none
  deriving Repr

/-- The classads `job.queue(txn, count=n, ad_results=classads)` hands back:
the schedd assigns one fresh `clusterid` and procs `0 .. n-1` (atomic
multi-job submission returning scheduler-assigned identifiers, per the
external interface of the Scheduler Client). -/
def submitAds (clusterid : Nat) (n : Nat) : List Ad :=
  (List.range n).map (fun i =>
    { clusterId := clusterid, procId := i, jobStatus := JOB_STATUS_IDLE })

/-- `start_workers(n=1, ...)`: validates `n`, then each knob after its
`arg or default` fallback, in source order, raising `ValueError` before any
remote call; then builds the submit ad and queues `n` jobs in one schedd
transaction, recording each returned classad in `self.jobs` under
`"%s.%s" % (ClusterId, ProcId)`.  The function body has no `return`
statement, so its Python return value is `None` (the `Option Nat` in the
result); the fresh cluster id chosen by the schedd is `newClusterId`. -/
def HTCondorCluster.start_workers (c : HTCondorCluster) (newClusterId : Nat)
    (a : StartArgs) :
    List RemoteCall × Except String (HTCondorCluster × Option Nat) :=
  if a.n < 1 then ([], .error "ValueError: n must be >= 1") else
  let memory_per_worker := pyOr a.memory_per_worker c.memory_per_worker
  if memory_per_worker < 1 then
    ([], .error "ValueError: memory_per_worker must be >= 1 (MB)") else
  let procs_per_worker := pyOr a.procs_per_worker c.procs_per_worker
  if procs_per_worker < 1 then
    ([], .error "ValueError: procs_per_worker must be >= 1") else
  let threads_per_worker := pyOr a.threads_per_worker c.threads_per_worker
  if threads_per_worker < 1 then
    ([], .error "ValueError: threads_per_worker must be >= 1") else
  let reserved_memory :=
    pyOrOpt a.reserved_memory c.reserved_memory
      (reserved_memory_per_worker procs_per_worker)
  if ¬ (0 ≤ reserved_memory ∧ reserved_memory < memory_per_worker) then
    ([], .error
      "ValueError: reserved_memory must be between 0 (MB) and memory_per_worker")
  else
  let memory_limit := memory_per_worker - reserved_memory
  let worker_timeout := pyOr a.worker_timeout c.worker_timeout
  if worker_timeout < 1 then
    ([], .error "ValueError: worker_timeout must be >= 1 (sec)") else
  let request_cpus :=
    procs_per_worker * threads_per_worker +
      (if procs_per_worker > 1 then 1 else 0)
  let descriptor : SubmitDescriptor :=
    { nprocs := procs_per_worker
      nthreads := threads_per_worker
      memory_limit := memory_limit
      request_memory := memory_per_worker
      request_cpus := request_cpus
      dask_scheduler_id := c.scheduler_id
      periodic_hold_seconds := worker_timeout }
  let classads := submitAds newClusterId a.n.toNat
  let jobs' := classads.foldl (fun js ad => dictInsert js (adJobId ad) ad) c.jobs
  ([RemoteCall.submit descriptor a.n.toNat],
    .ok ({ c with jobs := jobs' }, none))

/-- `killall()`: `condor_rm(self.schedd, self.scheduler_constraint)`.
It touches nothing else — in particular not `self.jobs`. -/
def HTCondorCluster.killall (c : HTCondorCluster) :
    List RemoteCall × HTCondorCluster :=
  ([RemoteCall.act_remove c.scheduler_constraint], c)

/-- `stop_workers(worker_ids)` (list form): intersects
`self.scheduler_constraint` with `workers_constraint(worker_ids)` by `&&`
and issues `condor_rm`; a `ValueError` from the constraint builder
propagates before any remote call. -/
def HTCondorCluster.stop_workers (c : HTCondorCluster)
    (worker_ids : List String) : List RemoteCall × Except String Unit :=
  match workers_constraint worker_ids with
  | .error e => ([], .error e)
  | .ok wc =>
      ([RemoteCall.act_remove (c.scheduler_constraint ++ " && " ++ wc)],
        .ok ())

/-- The ids `'%s.%s' % (ad['ClusterId'], ad['ProcId'])` of the query-result
ads whose `JobStatus` is idle, running or held. -/
def active_jobids (queryResult : List Ad) : List JobId :=
  (queryResult.filter (fun ad =>
      ad.jobStatus = JOB_STATUS_IDLE ∨ ad.jobStatus = JOB_STATUS_RUNNING ∨
        ad.jobStatus = JOB_STATUS_HELD)).map adJobId

/-- `cleanup_jobs()`: queries the schedd for the ads matching
`self.scheduler_constraint` (the response is the `queryResult` parameter),
keeps the active ids, and deletes every tracked jobid not among them
(iterating over a fresh copy of the key list, Python 2 `dict.keys()`). -/
def HTCondorCluster.cleanup_jobs (c : HTCondorCluster)
    (queryResult : List Ad) : HTCondorCluster :=
  let active := active_jobids queryResult
  { c with jobs := c.jobs.filter (fun p => p.1 ∈ active) }

/-- `close()`: `self.killall()` then `self.local_cluster.close()` (an
external collaborator that issues no schedd request).  Nothing is removed
from `_global_schedulers`, so the registry is returned unchanged. -/
def HTCondorCluster.close (registry : Registry) (c : HTCondorCluster) :
    Registry × List RemoteCall × HTCondorCluster :=
  let (calls, c') := c.killall
  (registry, calls, c')

/-! Helper lemmas about the model. -/

/-- Inserting a key absent from the dict appends the entry. -/
theorem dictInsert_fresh (d : List (JobId × Ad)) (k : JobId) (v : Ad)
    (h : ∀ p ∈ d, p.1 ≠ k) : dictInsert d k v = d ++ [(k, v)] := by
  unfold dictInsert
  rw [if_neg]
  simp only [List.any_eq_true, decide_eq_true_eq, not_exists]
  intro p hp
  exact h p hp.1 hp.2

/-- On a keyed map with no duplicate keys, `find?` at a member's key returns
that member. -/
theorem find?_map_adJobId (ads : List Ad)
    (hnd : (ads.map adJobId).Nodup) (ad : Ad) (had : ad ∈ ads) :
    (ads.map (fun a => (adJobId a, a))).find?
        (fun p => p.1 = adJobId ad) = some (adJobId ad, ad) := by
  induction ads with
  | nil => cases had
  | cons a as ih =>
      simp only [List.map_cons, List.nodup_cons] at hnd
      rcases List.mem_cons.mp had with h | h
      · subst h
        simp [List.find?_cons_of_pos]
      · have hne : adJobId a ≠ adJobId ad := by
          intro he
          exact hnd.1 (he ▸ List.mem_map_of_mem adJobId h)
        simp only [List.map_cons]
        rw [List.find?_cons_of_neg _ (by simpa using hne)]
        exact ih hnd.2 h

/-- Folding fresh, pairwise-distinct insertions over a dict appends all the
new entries in order. -/
theorem foldl_dictInsert_fresh (ads : List Ad) (d : List (JobId × Ad))
    (hnd : (ads.map adJobId).Nodup)
    (hfresh : ∀ ad ∈ ads, ∀ p ∈ d, p.1 ≠ adJobId ad) :
    ads.foldl (fun js ad => dictInsert js (adJobId ad) ad) d
      = d ++ ads.map (fun ad => (adJobId ad, ad)) := by
  induction ads generalizing d with
  | nil => simp
  | cons a as ih =>
      simp only [List.map_cons, List.nodup_cons] at hnd
      have h1 : dictInsert d (adJobId a) a = d ++ [(adJobId a, a)] :=
        dictInsert_fresh d (adJobId a) a
          (fun p hp => hfresh a (List.mem_cons_self a as) p hp)
      simp only [List.foldl_cons, h1]
      have hfresh' : ∀ ad ∈ as, ∀ p ∈ d ++ [(adJobId a, a)], p.1 ≠ adJobId ad := by
        intro ad had p hp
        rcases List.mem_append.mp hp with hm | hm
        · exact hfresh ad (List.mem_cons_of_mem a had) p hm
        · simp only [List.mem_singleton] at hm
          subst hm
          intro he
          have he' : adJobId a = adJobId ad := he
          exact hnd.1 (he' ▸ List.mem_map_of_mem adJobId had)
      rw [ih (d ++ [(adJobId a, a)]) hnd.2 hfresh']
      simp

/-- The job ids of a submitted batch are pairwise distinct: the shared
cluster id paired with procs `0 .. n-1`. -/
theorem submitAds_keys_nodup (cid n : Nat) :
    ((submitAds cid n).map adJobId).Nodup := by
  unfold submitAds
  rw [List.map_map]
  exact (List.nodup_range n).map (fun i j h => (Prod.mk.injEq _ _ _ _ ▸ h).2)

/-- With a reachable schedd, the exit handler issues one removal request per
registered entry, in registration order, and succeeds. -/
theorem global_killall_noFail (l : Registry) :
    global_killall (fun _ => false) l
      = (l.map (fun e =>
          RemoteCall.act_remove ("DaskSchedulerId == \"" ++ e.1 ++ "\"")),
         Except.ok ()) := by
  induction l with
  | nil => rfl
  | cons e rest ih => simp [global_killall, condor_rm, ih]

/-- A concrete controller used by the concrete counterexamples: scheduler id
`"s1"`, schedd handle `0`, no tracked jobs, constructor defaults. -/
def sampleCluster : HTCondorCluster :=
  { scheduler_id := "s1"
    schedd := 0
    jobs := []
    memory_per_worker := 1024
    procs_per_worker := 1
    threads_per_worker := 1
    reserved_memory := none
    worker_timeout := 86400 }

/-- The controller state after `start_workers(n=3)` on `sampleCluster` with
fresh cluster id 7: the three returned classads tracked under their ids. -/
def sampleAfterStart3 : HTCondorCluster :=
  { sampleCluster with
      jobs := [((7, 0), { clusterId := 7, procId := 0, jobStatus := 1 }),
               ((7, 1), { clusterId := 7, procId := 1, jobStatus := 1 }),
               ((7, 2), { clusterId := 7, procId := 2, jobStatus := 1 })] }

/-! Claim theorems. -/

/-- C1 counterexample: on a concrete controller, two successive `close()`
calls issue two remote removal requests, not one — the code keeps no closed
flag, so the second call runs `killall()` again. -/
theorem close_twice_single_removal_cex :
    (((HTCondorCluster.close [] sampleCluster).2.1 ++
        (HTCondorCluster.close []
          (HTCondorCluster.close [] sampleCluster).2.2).2.1).filter
        RemoteCall.isRemove).length = 2 := by rfl

/-- C1 (amended): every `close()` call unconditionally invokes `killall()`;
two successive `close()` calls issue two remote removal requests, one per
call, each with the controller's scheduler constraint. -/
theorem close_issues_one_removal_per_call (reg reg2 : Registry)
    (c : HTCondorCluster) :
    (HTCondorCluster.close reg c).2.1
        = [RemoteCall.act_remove c.scheduler_constraint] ∧
    (HTCondorCluster.close reg2 (HTCondorCluster.close reg c).2.2).2.1
        = [RemoteCall.act_remove c.scheduler_constraint] :=
  ⟨rfl, rfl⟩

/-- C2 counterexample: construct a controller (which appends `("s1", 0)` to
the empty registry) and close it; the pair is still in the registry after
`close()` returns. -/
theorem close_deregisters_cex :
    (HTCondorCluster.close (HTCondorCluster.init [] "s1" 0 {}).1
        sampleCluster).1 = [("s1", 0)] := by rfl

/-- C2 (amended): `close()` calls `killall()` and closes the local cluster
but performs no deregistration — it leaves `_global_schedulers` unchanged,
so the `(scheduler_id, schedd)` pair appended by construction is still
registered after `close()`. -/
theorem close_does_not_deregister (reg : Registry) (sid : String)
    (schedd : Nat) (a : InitArgs) (c : HTCondorCluster) :
    (HTCondorCluster.close reg c).1 = reg ∧
    (sid, schedd) ∈
      (HTCondorCluster.close
        (HTCondorCluster.init reg sid schedd a).1 c).1 := by
  refine ⟨rfl, ?_⟩
  show (sid, schedd) ∈ (HTCondorCluster.init reg sid schedd a).1
  unfold HTCondorCluster.init
  split <;> simp

/-- C3 counterexample: with a single registered controller whose schedd
raises on contact, `global_killall` propagates the exception out of the
exit handler instead of logging it. -/
theorem global_killall_never_raises_cex :
    global_killall (fun _ => true) [("s1", 0)]
      = ([], Except.error "HTCondorIOError") := rfl

/-- C3 (amended): the exit handler has no exception handling — when the
removal request for a registered controller fails, `global_killall`
propagates the failure, and the remaining registry entries are not
processed. -/
theorem global_killall_propagates_failure (fails : Nat → Bool) (sid : String)
    (schedd : Nat) (rest : Registry) (h : fails schedd = true) :
    global_killall fails ((sid, schedd) :: rest)
      = ([], Except.error "HTCondorIOError") := by
  simp [global_killall, condor_rm, h]

/-- Witness for `global_killall_propagates_failure` at a concrete registry
of two entries whose schedds both fail. -/
theorem global_killall_propagates_failure_witness :
    ((fun _ => true) : Nat → Bool) 0 = true ∧
    global_killall (fun _ => true) [("s1", 0), ("s2", 1)]
      = ([], Except.error "HTCondorIOError") :=
  ⟨rfl, global_killall_propagates_failure (fun _ => true) "s1" 0 [("s2", 1)] rfl⟩

/-- C4 counterexample: `workers_constraint([])` does not raise — it returns
the vacuous expression `"()"` — and `stop_workers([])` on a concrete
controller succeeds and issues a remote removal call. -/
theorem stop_workers_empty_cex :
    workers_constraint [] = Except.ok "()" ∧
    HTCondorCluster.stop_workers sampleCluster []
      = ([RemoteCall.act_remove "(DaskSchedulerId == \"s1\") && ()"],
         Except.ok ()) :=
  ⟨rfl, rfl⟩

/-- C4 (amended): for the empty job-identifier set, `workers_constraint`
returns the degenerate expression `"()"` without error, and
`stop_workers([])` succeeds, issuing exactly one remote removal request
whose expression is the controller constraint AND `"()"`. -/
theorem stop_workers_empty_succeeds (c : HTCondorCluster) :
    workers_constraint [] = Except.ok "()" ∧
    HTCondorCluster.stop_workers c []
      = ([RemoteCall.act_remove (c.scheduler_constraint ++ " && ()")],
         Except.ok ()) := by
  refine ⟨rfl, ?_⟩
  show ([RemoteCall.act_remove (c.scheduler_constraint ++ " && " ++ "()")],
        Except.ok ()) = _
  rw [String.append_assoc]
  rfl

/-- C6: `cleanup_jobs` keeps exactly the tracked entries whose id appears in
the remote query result restricted to statuses Idle, Running and Held
(dropping precisely the absentees), never adds an entry, and running it a
second time with the same query result changes nothing. -/
theorem cleanup_jobs_drops_inactive (c : HTCondorCluster) (q : List Ad) :
    (∀ p : JobId × Ad,
        p ∈ (c.cleanup_jobs q).jobs ↔ p ∈ c.jobs ∧ p.1 ∈ active_jobids q) ∧
    (∀ p ∈ (c.cleanup_jobs q).jobs, p ∈ c.jobs) ∧
    (c.cleanup_jobs q).cleanup_jobs q = c.cleanup_jobs q := by
  refine ⟨?_, ?_, ?_⟩
  · intro p
    simp [HTCondorCluster.cleanup_jobs, List.mem_filter]
  · intro p hp
    simp only [HTCondorCluster.cleanup_jobs, List.mem_filter] at hp
    exact hp.1
  · simp [HTCondorCluster.cleanup_jobs, List.filter_filter]

/-- C8: the Budget Calculator is a pure function; for every
`procs_per_worker ≥ 1` its value is non-negative and it is monotone
non-decreasing in `procs_per_worker`. -/
theorem reserved_memory_per_worker_monotone (p p' : Int) (h1 : 1 ≤ p)
    (h2 : p ≤ p') :
    0 ≤ reserved_memory_per_worker p ∧
    reserved_memory_per_worker p ≤ reserved_memory_per_worker p' := by
  simp only [reserved_memory_per_worker]
  split_ifs <;> omega

/-- Witness for `reserved_memory_per_worker_monotone` at
`procs_per_worker` 1 and 2. -/
theorem reserved_memory_per_worker_monotone_witness :
    1 ≤ (1 : Int) ∧ (1 : Int) ≤ 2 ∧
    (0 ≤ reserved_memory_per_worker 1 ∧
      reserved_memory_per_worker 1 ≤ reserved_memory_per_worker 2) :=
  ⟨by decide, by decide,
    reserved_memory_per_worker_monotone 1 2 (by decide) (by decide)⟩

/-- C9: when `cleanup_interval < 1` the constructor raises `ValueError`,
but the `(scheduler_id, schedd)` pair was already appended to
`_global_schedulers` before the check, so the failed construction stays
registered, and the exit handler (with a reachable schedd) still issues a
removal request for it. -/
theorem init_registers_before_validation (reg : Registry) (sid : String)
    (schedd : Nat) (a : InitArgs) (h : a.cleanup_interval < 1) :
    (HTCondorCluster.init reg sid schedd a).2
        = Except.error "ValueError: cleanup_interval must be >= 1" ∧
    (HTCondorCluster.init reg sid schedd a).1 = reg ++ [(sid, schedd)] ∧
    RemoteCall.act_remove ("DaskSchedulerId == \"" ++ sid ++ "\"")
        ∈ (global_killall (fun _ => false)
            (HTCondorCluster.init reg sid schedd a).1).1 := by
  have h1 : (HTCondorCluster.init reg sid schedd a).1
      = reg ++ [(sid, schedd)] := by
    unfold HTCondorCluster.init
    split <;> rfl
  refine ⟨?_, h1, ?_⟩
  · simp only [HTCondorCluster.init]
    rw [if_pos h]
  · rw [h1, global_killall_noFail]
    exact List.mem_map_of_mem _
      (List.mem_append_right _ (List.mem_singleton_self _))

/-- Witness for `init_registers_before_validation` at `cleanup_interval`
0 on the empty registry. -/
theorem init_registers_before_validation_witness :
    (({ cleanup_interval := 0 } : InitArgs).cleanup_interval < 1) ∧
    ((HTCondorCluster.init [] "s1" 0 { cleanup_interval := 0 }).2
        = Except.error "ValueError: cleanup_interval must be >= 1" ∧
      (HTCondorCluster.init [] "s1" 0 { cleanup_interval := 0 }).1
        = [] ++ [("s1", 0)] ∧
      RemoteCall.act_remove ("DaskSchedulerId == \"" ++ "s1" ++ "\"")
        ∈ (global_killall (fun _ => false)
            (HTCondorCluster.init [] "s1" 0 { cleanup_interval := 0 }).1).1) :=
  ⟨by decide,
    init_registers_before_validation [] "s1" 0 { cleanup_interval := 0 }
      (by decide)⟩

/-- C10: `killall()` issues the removal request for every job matching the
controller constraint but leaves the local `jobs` dict completely
unchanged; only a later `cleanup_jobs` pass (here with the post-removal
empty query result) prunes the stale entries. -/
theorem killall_preserves_jobs (c : HTCondorCluster) :
    (c.killall.2).jobs = c.jobs ∧
    c.killall.1 = [RemoteCall.act_remove c.scheduler_constraint] ∧
    (HTCondorCluster.cleanup_jobs c.killall.2 []).jobs = [] := by
  refine ⟨rfl, rfl, ?_⟩
  simp [HTCondorCluster.cleanup_jobs, active_jobids, HTCondorCluster.killall]

/-- C5 counterexample: a successful `start_workers(n=3)` on a concrete
controller records all three returned descriptors, but its Python return
value is `None` — the batch identifier (cluster id 7) is logged, not
returned to the caller. -/
theorem start_workers_returns_none_cex :
    Except.map (fun r => r.2)
        (HTCondorCluster.start_workers sampleCluster 7 { n := 3 }).2
      = Except.ok (none : Option Nat) ∧
    Except.map (fun r => r.1.jobs.length)
        (HTCondorCluster.start_workers sampleCluster 7 { n := 3 }).2
      = Except.ok 3 :=
  ⟨rfl, rfl⟩

/-- C5 (amended): every successful `start_workers(n, ...)` call whose fresh
cluster id does not collide with a tracked job records every Job Descriptor
returned by the batch submission in `jobs` — exactly `n` new entries with
pairwise-distinct ids, each retrievable by its id — but returns `None`
rather than the batch identifier. -/
theorem start_workers_records_returned_ads (c : HTCondorCluster)
    (cid : Nat) (a : StartArgs) (c' : HTCondorCluster) (ret : Option Nat)
    (hok : (c.start_workers cid a).2 = Except.ok (c', ret))
    (hfresh : ∀ p ∈ c.jobs, p.1.1 ≠ cid) :
    ret = none ∧
    c'.jobs.length = c.jobs.length + a.n.toNat ∧
    ((submitAds cid a.n.toNat).map adJobId).Nodup ∧
    (∀ ad ∈ submitAds cid a.n.toNat,
      dictFind c'.jobs (adJobId ad) = some ad) := by
  have hf : ∀ ad ∈ submitAds cid a.n.toNat, ∀ p ∈ c.jobs,
      p.1 ≠ adJobId ad := by
    intro ad had p hp
    simp only [submitAds, List.mem_map, List.mem_range] at had
    obtain ⟨i, _, rfl⟩ := had
    intro he
    exact hfresh p hp (by rw [he]; rfl)
  have hnd := submitAds_keys_nodup cid a.n.toNat
  have hfold := foldl_dictInsert_fresh (submitAds cid a.n.toNat) c.jobs hnd hf
  simp only [HTCondorCluster.start_workers] at hok
  split_ifs at hok <;> simp only [Except.ok.injEq, Prod.mk.injEq] at hok
  all_goals
    obtain ⟨hc', hret⟩ := hok
    subst hc'
    refine ⟨hret.symm, ?_, hnd, ?_⟩
    · simp only [hfold, List.length_append, List.length_map]
      simp [submitAds]
    · intro ad had
      simp only [hfold, dictFind, List.find?_append]
      have h1 : c.jobs.find? (fun p => p.1 = adJobId ad) = none :=
        List.find?_eq_none.mpr (fun p hp => by simpa using hf ad had p hp)
      rw [h1, Option.none_or, find?_map_adJobId _ hnd ad had]
      rfl

/-- Witness for `start_workers_records_returned_ads`: the concrete
controller, cluster id 7 and `n = 3` (tracking no prior jobs, so freshness
is vacuous). -/
theorem start_workers_records_returned_ads_witness :
    (none : Option Nat) = none ∧
    sampleAfterStart3.jobs.length
        = sampleCluster.jobs.length + (3 : Int).toNat ∧
    ((submitAds 7 (3 : Int).toNat).map adJobId).Nodup ∧
    (∀ ad ∈ submitAds 7 (3 : Int).toNat,
      dictFind sampleAfterStart3.jobs (adJobId ad) = some ad) :=
  start_workers_records_returned_ads sampleCluster 7 { n := 3 }
    sampleAfterStart3 none (by rfl) (by simp [sampleCluster])

/-- C7 counterexample: `start_workers(n=1, memory_per_worker=0)` on a
concrete controller passes a knob that violates its stated minimum
`memory_per_worker ≥ 1`, yet the call raises nothing — Python's `or`
fallback silently replaces the falsy 0 with the constructor default 1024 —
and a remote submission is issued. -/
theorem start_workers_zero_knob_cex :
    ((HTCondorCluster.start_workers sampleCluster 7
        { n := 1, memory_per_worker := some 0 }).2).toOption.isSome = true ∧
    (HTCondorCluster.start_workers sampleCluster 7
        { n := 1, memory_per_worker := some 0 }).1.length = 1 :=
  ⟨rfl, rfl⟩

/-- C7 (amended): `start_workers` validates the effective knob values — an
explicitly passed 0 is falsy in Python and falls back to the constructor
default instead of raising.  Whenever `n < 1`, an effective knob violates
its minimum, or the effective `reserved_memory` is outside
`[0, memory_per_worker)`, the call raises `ValueError` synchronously with
no remote call issued (in particular `start_workers(n=0)` and
`start_workers(n=-1)` fail this way). -/
theorem start_workers_validates_effective (c : HTCondorCluster) (cid : Nat)
    (a : StartArgs)
    (h : a.n < 1 ∨
      pyOr a.memory_per_worker c.memory_per_worker < 1 ∨
      pyOr a.procs_per_worker c.procs_per_worker < 1 ∨
      pyOr a.threads_per_worker c.threads_per_worker < 1 ∨
      ¬ (0 ≤ pyOrOpt a.reserved_memory c.reserved_memory
            (reserved_memory_per_worker
              (pyOr a.procs_per_worker c.procs_per_worker)) ∧
          pyOrOpt a.reserved_memory c.reserved_memory
            (reserved_memory_per_worker
              (pyOr a.procs_per_worker c.procs_per_worker))
            < pyOr a.memory_per_worker c.memory_per_worker) ∨
      pyOr a.worker_timeout c.worker_timeout < 1) :
    (c.start_workers cid a).1 = [] ∧
    ∃ e, (c.start_workers cid a).2 = Except.error e := by
  simp only [HTCondorCluster.start_workers]
  split_ifs <;>
    first
      | exact ⟨rfl, _, rfl⟩
      | (exfalso; tauto)

/-- Witness for `start_workers_validates_effective`: the concrete call
`start_workers(n=0)` issues no remote call and raises. -/
theorem start_workers_validates_effective_witness :
    (HTCondorCluster.start_workers sampleCluster 7 { n := 0 }).1 = [] ∧
    (∃ e, (HTCondorCluster.start_workers sampleCluster 7 { n := 0 }).2
        = Except.error e) :=
  start_workers_validates_effective sampleCluster 7 { n := 0 }
    (Or.inl (by decide))

end DaskCondor
